import Mathlib

/-!
Shallow embedding of `src/Clients/Visuals/visuals/radarChart.ts` (the
`powerbi.visuals.RadarChart` visual) and proofs about the claims on its
specification.

Modelling conventions:
* JavaScript numbers are embedded as `ℚ` (exact arithmetic); `undefined`
  is embedded as `Option.none` where a value can be missing.
* `Math.sin`, `Math.cos` and `2 * Math.PI` are host/library functions on
  irrational values, so they are abstracted into an `Env` record of an
  arbitrary sine, cosine and `twoPi`; the palette `IDataColorPalette`
  (only used through `getColorByIndex(i).value`) is abstracted as a
  function `ℕ → String` in the same record.
* The D3 scene-graph calls are embedded as the list of elements appended
  to the axis and data graphics contexts, in append order, with the
  numeric attributes computed exactly as in the source.
* A thrown `TypeError` (dereferencing `undefined`) is embedded as
  `Option.none` in the result of the function that would throw.
-/

namespace PowerBI

/-- A value stored in a metadata property bag (`DataViewObject`).
The capability declarations of the visual type each property as a bool,
a numeric or a string, so the bag is embedded with typed fields. -/
inductive PropValue where
  | b (v : Bool)
  | num (v : ℚ)
  | str (v : String)
deriving DecidableEq

/-- The `nodes` metadata object (`show`, `sizeFactor`, `shape` properties;
each may be absent). -/
structure NodesObject where
  show? : Option Bool
  sizeFactor : Option ℚ
  shape : Option String
deriving DecidableEq

/-- The `levelAxis` metadata object (`show`, `format`, `segments`). -/
structure LevelAxisObject where
  show? : Option Bool
  format : Option String
  segments : Option ℚ
deriving DecidableEq

/-- The `categoryAxis` metadata object (`show`). -/
structure CategoryAxisObject where
  show? : Option Bool
deriving DecidableEq

/-- Embedding of `dataView.metadata.objects` : the three metadata objects the visual
reads, each possibly absent; the whole bag may also be absent. -/
structure DataViewObjects where
  nodes : Option NodesObject
  levelAxis : Option LevelAxisObject
  categoryAxis : Option CategoryAxisObject
deriving DecidableEq

/-- Embedding of `dataView.metadata`. -/
structure DataViewMetadata where
  objects : Option DataViewObjects
deriving DecidableEq

/-- A category column: its `values` array (labels, used as strings). -/
structure DataViewCategoryColumn where
  values : List String
deriving DecidableEq

/-- One value column (`DataViewValueColumn`): its numeric `values` array
and its host-supplied `identity` token (abstract, embedded as `ℕ`). -/
structure DataViewValueColumn where
  values : List ℚ
  identity : ℕ
deriving DecidableEq

/-- The value-columns collection (`DataViewValueColumns`): the array of
columns, the optional `source` column (only its `displayName` is read),
and the groups returned by `grouped()` (only indexed, so embedded as an
abstract list of tokens). -/
structure DataViewValueColumns where
  cols : List DataViewValueColumn
  sourceDisplayName : Option String
  grouped : List ℕ
deriving DecidableEq

/-- Embedding of `dataView.categorical`. -/
structure DataViewCategorical where
  categories : List DataViewCategoryColumn
  values : Option DataViewValueColumns
deriving DecidableEq

/-- A host data view, restricted to the parts the visual reads. -/
structure DataView where
  categorical : Option DataViewCategorical
  metadata : DataViewMetadata
deriving DecidableEq

/-- Embedding of `IViewport`. -/
structure IViewport where
  width : ℚ
  height : ℚ
deriving DecidableEq

/-- Embedding of `VisualUpdateOptions`, restricted to the fields `update` reads.
`dataViews := none` embeds a missing `options.dataViews` array; a first
element that is missing is embedded by the empty list. -/
structure VisualUpdateOptions where
  dataViews : Option (List DataView)
  viewport : IViewport
  suppressAnimations : Bool
deriving DecidableEq

/-- Embedding of `RadarChartDataPoint`. -/
structure RadarChartDataPoint where
  value : ℚ
  categoryIndex : ℕ
  seriesIndex : ℕ
  color : String
deriving DecidableEq

/-- Embedding of `RadarChartSeries`. -/
structure RadarChartSeries where
  displayName : String
  key : String
  index : ℕ
  data : List RadarChartDataPoint
  identity : ℕ
  color : String
deriving DecidableEq

/-- Embedding of `RadarChartData`. -/
structure RadarChartData where
  series : List RadarChartSeries
  categories : List String
  values : List RadarChartDataPoint
deriving DecidableEq

/-- Embedding of `RadarChartSettings`.  `levelsFormat` stores the format string handed
to `d3.format`; `maxValue` is `none` when `d3.max` returns `undefined`. -/
structure RadarChartSettings where
  width : ℚ
  height : ℚ
  catTotal : ℕ
  catAxis : List String
  radius : ℚ
  nodeRadius : ℚ
  levels : ℚ
  levelsFormat : Option String
  maxValue : Option ℚ
deriving DecidableEq

/-- Host environment fixed at `init`: abstract trigonometry and the color
palette (`this.colors`). -/
structure Env where
  sin : ℚ → ℚ
  cos : ℚ → ℚ
  twoPi : ℚ
  colors : ℕ → String

namespace RadarChart

/-- Embedding of `RadarChart.Factor`. -/
def Factor : ℚ := 1

/-- Embedding of `RadarChart.FactorLegend`. -/
def FactorLegend : ℚ := 17 / 20

/-- Embedding of `RadarChart.OpacityArea`. -/
def OpacityArea : ℚ := 1 / 2

/-- Embedding of `RadarChart.ToRight`. -/
def ToRight : ℚ := 1 / 2

/-- Embedding of `RadarChart.TranslateX`. -/
def TranslateX : ℚ := 80

/-- Embedding of `RadarChart.TranslateY`. -/
def TranslateY : ℚ := 30

/-- Embedding of `RadarChart.MarginFactor`. -/
def MarginFactor : ℚ := 17 / 20

/-- JavaScript truthiness of an optional boolean (`undefined` is falsy). -/
def jsTruthy : Option Bool → Bool
  | none => false
  | some b => b

/-- Embedding of `RadarChart.getShowNodes`: the raw `nodes["show"]` value when the
`nodes` object exists (possibly `undefined`), else `true`. -/
def getShowNodes (dataView : Option DataView) : Option Bool :=
  match dataView with
  | some dv =>
    match dv.metadata.objects with
    | some objs =>
      match objs.nodes with
      | some nodes => nodes.show?
      | none => some true
    | none => some true
  | none => some true

/-- Embedding of `RadarChart.getSizeFactorNodes`: `nodes["sizeFactor"]` when present
(`!== undefined`), else `4`. -/
def getSizeFactorNodes (dataView : Option DataView) : ℚ :=
  match dataView with
  | some dv =>
    match dv.metadata.objects with
    | some objs =>
      match objs.nodes with
      | some nodes =>
        match nodes.sizeFactor with
        | some sizeFactor => sizeFactor
        | none => 4
      | none => 4
    | none => 4
  | none => 4

/-- Embedding of `RadarChart.getShapeNodes`: `nodes["shape"]` when present, else
`"square"`. -/
def getShapeNodes (dataView : Option DataView) : String :=
  match dataView with
  | some dv =>
    match dv.metadata.objects with
    | some objs =>
      match objs.nodes with
      | some nodes =>
        match nodes.shape with
        | some shape => shape
        | none => "square"
      | none => "square"
    | none => "square"
  | none => "square"

/-- Embedding of `RadarChart.getShowLevelAxis`: the raw `levelAxis["show"]` value when
the `levelAxis` object exists, else `true`. -/
def getShowLevelAxis (dataView : Option DataView) : Option Bool :=
  match dataView with
  | some dv =>
    match dv.metadata.objects with
    | some objs =>
      match objs.levelAxis with
      | some levelAxis => levelAxis.show?
      | none => some true
    | none => some true
  | none => some true

/-- Embedding of `RadarChart.getFormatLevelAxis`: the raw `levelAxis["format"]` value
when the `levelAxis` object exists (possibly `undefined`), else `"%"`. -/
def getFormatLevelAxis (dataView : Option DataView) : Option String :=
  match dataView with
  | some dv =>
    match dv.metadata.objects with
    | some objs =>
      match objs.levelAxis with
      | some levelAxis => levelAxis.format
      | none => some ("%")
    | none => some ("%")
  | none => some ("%")

/-- Embedding of `RadarChart.getSegmentsLevelAxis`: `levelAxis["segments"]` when
present (`!== undefined`), else `4`. -/
def getSegmentsLevelAxis (dataView : Option DataView) : ℚ :=
  match dataView with
  | some dv =>
    match dv.metadata.objects with
    | some objs =>
      match objs.levelAxis with
      | some levelAxis =>
        match levelAxis.segments with
        | some segments => segments
        | none => 4
      | none => 4
    | none => 4
  | none => 4

/-- Embedding of `RadarChart.getShowCategoryAxis`: the raw `categoryAxis["show"]`
value when the `categoryAxis` object exists, else `true`. -/
def getShowCategoryAxis (dataView : Option DataView) : Option Bool :=
  match dataView with
  | some dv =>
    match dv.metadata.objects with
    | some objs =>
      match objs.categoryAxis with
      | some categoryAxis => categoryAxis.show?
      | none => some true
    | none => some true
  | none => some true

/-- Inner loop of `converter` (lines 223-236): the data points of the
value column at `seriesIndex`, with `valueIndex` counting from the given
start.  Each point records the raw value, the running `valueIndex` as
`categoryIndex`, the `seriesIndex`, and
`colors.getColorByIndex(seriesIndex).value`. -/
def seriesDataPoints (colors : ℕ → String) (seriesIndex : ℕ) :
    ℕ → List ℚ → List RadarChartDataPoint
  | _, [] => []
  | valueIndex, v :: rest =>
    { value := v, categoryIndex := valueIndex, seriesIndex := seriesIndex,
      color := colors seriesIndex } :: seriesDataPoints colors seriesIndex (valueIndex + 1) rest

/-- The `series` accumulator of the `converter` loop: one
`RadarChartSeries` per value column whose data-point list is non-empty
(lines 241-251), with `seriesIndex` counting from the given start. -/
def buildSeries (colors : ℕ → String) (legendTitle : String) :
    ℕ → List DataViewValueColumn → List RadarChartSeries
  | _, [] => []
  | seriesIndex, col :: rest =>
    (let dataPoints := seriesDataPoints colors seriesIndex 0 col.values
     if dataPoints = [] then [] else
       [{ displayName := legendTitle, key := "Serie" ++ toString seriesIndex,
          index := seriesIndex, data := dataPoints, identity := col.identity,
          color := colors seriesIndex }]) ++ buildSeries colors legendTitle (seriesIndex + 1) rest

/-- The `values` accumulator of the `converter` loop: every data point of
every value column, in series order then value-index order (line 235). -/
def buildValues (colors : ℕ → String) :
    ℕ → List DataViewValueColumn → List RadarChartDataPoint
  | _, [] => []
  | seriesIndex, col :: rest =>
    seriesDataPoints colors seriesIndex 0 col.values ++ buildValues colors (seriesIndex + 1) rest

/-- Embedding of `RadarChart.converter`.  Returns `none` when the code throws: it
dereferences `dataView.categorical.categories[0].values` unconditionally,
so a missing `categorical` or an empty `categories` array is a
`TypeError`.  The loop-local formatter calls (`getFormatString`,
`valueFormatter.format`) only feed dead variables and external calls, so
they do not appear in the result. -/
def converter (dataView : DataView) (colors : ℕ → String) : Option RadarChartData :=
  match dataView.categorical with
  | none => none
  | some categorical =>
    match categorical.categories with
    | [] => none
    | category :: _ =>
      let categoryValues := category.values
      let cols := match categorical.values with
        | some vs => vs.cols
        | none => []
      let legendTitle := match categorical.values with
        | some vs =>
          match vs.sourceDisplayName with
          | some t => t
          | none => ""
        | none => ""
      some { categories := categoryValues,
             series := buildSeries colors legendTitle 0 cols,
             values := buildValues colors 0 cols }

/-- The value-columns array `dataView.categorical.values` as a list
(empty when absent); the `seriesLen` bound of the `converter` loop is its
length. -/
def valueColumns (dataView : DataView) : List DataViewValueColumn :=
  match dataView.categorical with
  | some categorical =>
    match categorical.values with
    | some vs => vs.cols
    | none => []
  | none => []

/-- Length of the `grouped()` array that `converter` indexes with
`seriesIndex` (0 when `categorical` or `categorical.values` is absent,
in which case the loop body never runs). -/
def groupedLength (dataView : DataView) : ℕ :=
  match dataView.categorical with
  | some categorical =>
    match categorical.values with
    | some vs => vs.grouped.length
    | none => 0
  | none => 0

/-- Length of `categoryValues = categorical.categories[0].values`, the
array `converter` indexes with both `seriesIndex` and `valueIndex`. -/
def categoryValuesLength (dataView : DataView) : ℕ :=
  match dataView.categorical with
  | some categorical =>
    match categorical.categories with
    | category :: _ => category.values.length
    | [] => 0
  | none => 0

/-- The precondition under which `converter` does not throw:
`dataView.categorical` exists and has at least one category column. -/
def converterPrecondition (dataView : DataView) : Prop :=
  match dataView.categorical with
  | some categorical => categorical.categories ≠ []
  | none => False

/-- Every array index taken inside `converter` is within bounds: the
initial `categories[0]` (the precondition), and for every iteration
`seriesIndex` of the outer loop, `grouped[seriesIndex]` (line 217),
`categoryValues[seriesIndex]` (line 221), and
`categoryValues[valueIndex]` for every inner iteration (line 224);
`categorical.values[seriesIndex]` and `serie.values[valueIndex]` are in
bounds by the loop bounds themselves. -/
def converterAccessesInBounds (dataView : DataView) : Prop :=
  converterPrecondition dataView ∧
  ∀ s col, (valueColumns dataView)[s]? = some col →
    s < groupedLength dataView ∧ s < categoryValuesLength dataView ∧
    col.values.length ≤ categoryValuesLength dataView

/-- Embedding of `d3.max` over an array of numbers: `undefined` on an empty array,
otherwise the maximum element. -/
def d3Max (l : List ℚ) : Option ℚ := l.max?

/-- Number of iterations of a JavaScript loop
`for (var j = 0; j < bound; j++)` for a numeric bound: the number of
naturals strictly below `bound`. -/
def jsLoopCount (bound : ℚ) : ℕ :=
  if 0 < bound.num then (bound.num.toNat + bound.den - 1) / bound.den else 0

/-- The settings record built in `RadarChart.update` (lines 280-291). -/
def computeSettings (dataView : DataView) (data : RadarChartData)
    (viewport : IViewport) : RadarChartSettings :=
  let radius := Factor * min (viewport.width / 2) (viewport.height / 2) * MarginFactor
  { width := viewport.width,
    height := viewport.height,
    catTotal := data.categories.length,
    catAxis := data.categories,
    radius := radius,
    nodeRadius := radius * getSizeFactorNodes (some dataView) / 100,
    levels := getSegmentsLevelAxis (some dataView),
    levelsFormat := getFormatLevelAxis (some dataView),
    maxValue := d3Max (data.values.map RadarChartDataPoint.value) }

/-- One vertex entry of a data polygon: a coordinate pair, or the
`undefined` that `dataValues.push(dataValues[0])` appends when the list
is empty.  Coordinates are `none` when `settings.maxValue` is
`undefined` (the JavaScript arithmetic would produce `NaN`). -/
inductive PolyPt where
  | pt (x y : Option ℚ)
  | undef
deriving DecidableEq

/-- A scene-graph element appended by `drawAxis` or `drawData`, with the
numeric attributes computed in the source.  `ringSegment` carries
`x1 y1 x2 y2` and the translate offsets; `levelLabel` carries the
position, translate offsets, the numeric argument handed to
`settings.levelsFormat` and the format string itself; `node` carries
`cx`, `cy`, `r`, the `alt` value and the fill color. -/
inductive SceneElement where
  | ringSegment (x1 y1 x2 y2 tx ty : ℚ)
  | levelLabel (x y tx ty : ℚ) (value : Option ℚ) (format : Option String)
  | categoryLine (x1 y1 x2 y2 tx ty : ℚ)
  | categoryLabel (label : String) (x y tx ty : ℚ)
  | polygon (className : String) (pts : List PolyPt) (stroke fill : String)
  | node (cx cy : Option ℚ) (r alt : ℚ) (color : String)
deriving DecidableEq

/-- The circular level segments of `drawAxis` (lines 312-327): for each
level `j` and category `i`, one line at
`levelFactor = radius * ((j + 1) / levels)`. -/
def levelSegments (env : Env) (s : RadarChartSettings) : List SceneElement :=
  (List.range (jsLoopCount s.levels)).flatMap fun (j : ℕ) =>
    (List.range s.catTotal).map fun (i : ℕ) =>
      let levelFactor := s.radius * (((j : ℚ) + 1) / s.levels)
      SceneElement.ringSegment
        (levelFactor * (1 - Factor * env.sin ((i : ℚ) * env.twoPi / (s.catTotal : ℚ))))
        (levelFactor * (1 - Factor * env.cos ((i : ℚ) * env.twoPi / (s.catTotal : ℚ))))
        (levelFactor * (1 - Factor * env.sin (((i : ℚ) + 1) * env.twoPi / (s.catTotal : ℚ))))
        (levelFactor * (1 - Factor * env.cos (((i : ℚ) + 1) * env.twoPi / (s.catTotal : ℚ))))
        (s.width / 2 - levelFactor)
        (s.height / 2 - levelFactor)

/-- The level-value text labels of `drawAxis` (lines 330-341): one for
each `j < levels - 1`, showing `levelsFormat((j + 1) * maxValue / levels)`. -/
def levelLabels (env : Env) (s : RadarChartSettings) : List SceneElement :=
  (List.range (jsLoopCount (s.levels - 1))).map fun (j : ℕ) =>
    let levelFactor := s.radius * (((j : ℚ) + 1) / s.levels)
    SceneElement.levelLabel
      (levelFactor * (1 - Factor * env.sin 0))
      (levelFactor * (1 - Factor * env.cos 0))
      (s.width / 2 - levelFactor + ToRight)
      (s.height / 2 - levelFactor)
      (s.maxValue.map fun m => ((j : ℚ) + 1) * m / s.levels)
      s.levelsFormat

/-- The category radius lines of `drawAxis` (lines 346-356). -/
def categoryLines (env : Env) (s : RadarChartSettings) : List SceneElement :=
  (List.range s.catTotal).map fun (i : ℕ) =>
    SceneElement.categoryLine s.radius s.radius
      (s.radius * (1 - Factor * env.sin ((i : ℚ) * env.twoPi / (s.catTotal : ℚ))))
      (s.radius * (1 - Factor * env.cos ((i : ℚ) * env.twoPi / (s.catTotal : ℚ))))
      (s.width / 2 - s.radius)
      (s.height / 2 - s.radius)

/-- The category text labels of `drawAxis` (lines 359-373): one per entry
of `settings.catAxis`, with index `i` running over that array. -/
def categoryLabelsFrom (env : Env) (s : RadarChartSettings) :
    ℕ → List String → List SceneElement
  | _, [] => []
  | i, d :: rest =>
    SceneElement.categoryLabel d
      (s.radius * (1 - FactorLegend * env.sin ((i : ℚ) * env.twoPi / (s.catTotal : ℚ)))
        - 70 * env.sin ((i : ℚ) * env.twoPi / (s.catTotal : ℚ)))
      (s.radius * (1 - FactorLegend * env.cos ((i : ℚ) * env.twoPi / (s.catTotal : ℚ)))
        - 70 * env.cos ((i : ℚ) * env.twoPi / (s.catTotal : ℚ)))
      (s.width / 2 - s.radius)
      (s.height / 2 - s.radius - 15)
      :: categoryLabelsFrom env s (i + 1) rest

/-- Embedding of `RadarChart.drawAxis`: level segments and labels when the level axis
is shown, then category lines and labels when the category axis is
shown, in append order. -/
def drawAxis (env : Env) (dataView : Option DataView) (s : RadarChartSettings) :
    List SceneElement :=
  (if jsTruthy (getShowLevelAxis dataView) then
    levelSegments env s ++ levelLabels env s
  else []) ++
  (if jsTruthy (getShowCategoryAxis dataView) then
    categoryLines env s ++ categoryLabelsFrom env s 0 s.catAxis
  else [])

/-- The x coordinate computed for a data point in `drawData` (lines 388
and 439): `radius * (1 - (max(value, 0) / maxValue) * Factor *
sin(i * 2π / catTotal))`; `none` embeds the `NaN` produced when
`settings.maxValue` is `undefined`. -/
def dataPointCx (env : Env) (s : RadarChartSettings) (value : ℚ) (i : ℕ) : Option ℚ :=
  s.maxValue.map fun m =>
    s.radius * (1 - max value 0 / m * Factor * env.sin ((i : ℚ) * env.twoPi / (s.catTotal : ℚ)))

/-- The y coordinate computed for a data point in `drawData` (lines 389
and 442), with `cos` in place of `sin`. -/
def dataPointCy (env : Env) (s : RadarChartSettings) (value : ℚ) (i : ℕ) : Option ℚ :=
  s.maxValue.map fun m =>
    s.radius * (1 - max value 0 / m * Factor * env.cos ((i : ℚ) * env.twoPi / (s.catTotal : ℚ)))

/-- The vertex list accumulated in `dataValues` by the key function of
the polygon data join (lines 386-391), with `i` the index of the point
inside the data array of the series. -/
def polygonBase (env : Env) (s : RadarChartSettings) :
    ℕ → List RadarChartDataPoint → List PolyPt
  | _, [] => []
  | i, p :: rest =>
    PolyPt.pt (dataPointCx env s p.value i) (dataPointCy env s p.value i)
      :: polygonBase env s (i + 1) rest

/-- The closed vertex list of the polygon of one series:
`dataValues.push(dataValues[0])` appends the first vertex again
(`undefined` when the list is empty). -/
def polygonPts (env : Env) (s : RadarChartSettings)
    (dataPoints : List RadarChartDataPoint) : List PolyPt :=
  let base := polygonBase env s 0 dataPoints
  base ++ [base.headD PolyPt.undef]

/-- The polygons appended by the `drawData` series loop (lines 383-427):
one per series, with class `radar-chart-serie<j>` and stroke/fill
`colors.getColorByIndex(j).value` for the loop index `j`. -/
def polygonsFrom (env : Env) (s : RadarChartSettings) :
    ℕ → List RadarChartSeries → List SceneElement
  | _, [] => []
  | j, se :: rest =>
    SceneElement.polygon ("radar-chart-serie" ++ toString j)
      (polygonPts env s se.data) (env.colors j) (env.colors j)
      :: polygonsFrom env s (j + 1) rest

/-- The node circles appended by `drawData` (lines 429-446): one per
element of `data.values`, with `i` the index in that flattened array. -/
def nodesFrom (env : Env) (s : RadarChartSettings) :
    ℕ → List RadarChartDataPoint → List SceneElement
  | _, [] => []
  | i, p :: rest =>
    SceneElement.node (dataPointCx env s p.value i) (dataPointCy env s p.value i)
      s.nodeRadius (max p.value 0) p.color
      :: nodesFrom env s (i + 1) rest

/-- Embedding of `RadarChart.drawData`: the series polygons, then the data-point
nodes when `getShowNodes` is truthy. -/
def drawData (env : Env) (dataView : Option DataView) (s : RadarChartSettings)
    (data : RadarChartData) : List SceneElement :=
  polygonsFrom env s 0 data.series ++
  (if jsTruthy (getShowNodes dataView) then nodesFrom env s 0 data.values else [])

/-- The mutable state of a `RadarChart` instance: the stored
`this.dataView`, `this.data`, `this.settings` (each `undefined` before
the first successful update), and the children of the axis and data
graphics contexts. -/
structure RadarChartState where
  dataView : Option DataView
  data : Option RadarChartData
  settings : Option RadarChartSettings
  axisScene : List SceneElement
  dataScene : List SceneElement
deriving DecidableEq

/-- Embedding of `RadarChart.update`.  Returns the state unchanged when
`options.dataViews` is missing or has no first element (line 274).
Returns `none` when `converter` throws (the exception propagates out of
`update`).  Otherwise stores the new data view, data and settings,
clears both graphics contexts and redraws. -/
def update (env : Env) (options : VisualUpdateOptions)
    (st : RadarChartState) : Option RadarChartState :=
  match options.dataViews with
  | none => some st
  | some [] => some st
  | some (dataView :: _) =>
    match converter dataView env.colors with
    | none => none
    | some data =>
      let settings := computeSettings dataView data options.viewport
      some { dataView := some dataView,
             data := some data,
             settings := some settings,
             axisScene := drawAxis env (some dataView) settings,
             dataScene := drawData env (some dataView) settings data }

/-- A `VisualObjectInstance` pushed by `enumerateObjectInstances`:
`selector` is always `null`, and each property value may be
`undefined`. -/
structure VisualObjectInstance where
  objectName : String
  displayName : String
  selector : Option String
  properties : List (String × Option PropValue)
deriving DecidableEq

/-- Embedding of `RadarChart.enumerateObjectInstances`: one instance echoing the
current property values for `nodes`, `categoryAxis` and `levelAxis`; an
empty list for every other object name. -/
def enumerateObjectInstances (dataView : Option DataView)
    (objectName : String) : List VisualObjectInstance :=
  if objectName = "nodes" then
    [{ objectName := "nodes", displayName := "Nodes", selector := none,
       properties :=
         [("show", (getShowNodes dataView).map PropValue.b),
          ("sizeFactor", some (PropValue.num (getSizeFactorNodes dataView)))] }]
  else if objectName = "categoryAxis" then
    [{ objectName := "categoryAxis", displayName := "Category axis", selector := none,
       properties := [("show", (getShowCategoryAxis dataView).map PropValue.b)] }]
  else if objectName = "levelAxis" then
    [{ objectName := "levelAxis", displayName := "Level axis", selector := none,
       properties :=
         [("show", (getShowLevelAxis dataView).map PropValue.b),
          ("segments", some (PropValue.num (getSegmentsLevelAxis dataView)))] }]
  else []

/-- Offset of the first data point of value column `s` inside the
flattened `values` list: the sum of the lengths of the earlier columns. -/
def flatOffset : List DataViewValueColumn → ℕ → ℕ
  | _, 0 => 0
  | [], _ + 1 => 0
  | col :: rest, s + 1 => col.values.length + flatOffset rest s

/-- Absence condition for the `nodes` metadata object: the data view is
absent, it has no metadata objects, or the bag lacks `nodes`. -/
def nodesObjectAbsent (dataView : Option DataView) : Prop :=
  match dataView with
  | none => True
  | some dv =>
    match dv.metadata.objects with
    | none => True
    | some objs => objs.nodes = none

/-- Absence condition for the `levelAxis` metadata object. -/
def levelAxisObjectAbsent (dataView : Option DataView) : Prop :=
  match dataView with
  | none => True
  | some dv =>
    match dv.metadata.objects with
    | none => True
    | some objs => objs.levelAxis = none

/-- Absence condition for the `categoryAxis` metadata object. -/
def categoryAxisObjectAbsent (dataView : Option DataView) : Prop :=
  match dataView with
  | none => True
  | some dv =>
    match dv.metadata.objects with
    | none => True
    | some objs => objs.categoryAxis = none

/-- A concrete palette for the concrete instances below. -/
def paletteA : ℕ → String := fun i => "color" ++ toString i

/-- A concrete environment with zero trigonometric values. -/
def envA : Env := { sin := fun _ => 0, cos := fun _ => 0, twoPi := 6, colors := paletteA }

/-- A concrete well-formed data view: one category column with two
values, two value columns of two values each, grouped one group per
value column. -/
def dvA : DataView :=
  { categorical := some
      { categories := [{ values := ["a", "b"] }],
        values := some
          { cols := [{ values := [1, 2], identity := 5 },
                     { values := [3, 4], identity := 6 }],
            sourceDisplayName := some ("Measures"),
            grouped := [0, 1] } },
    metadata := { objects := none } }

/-- First series of `converter dvA paletteA`. -/
def seA0 : RadarChartSeries :=
  { displayName := "Measures", key := "Serie0", index := 0,
    data := [{ value := 1, categoryIndex := 0, seriesIndex := 0, color := paletteA 0 },
             { value := 2, categoryIndex := 1, seriesIndex := 0, color := paletteA 0 }],
    identity := 5, color := paletteA 0 }

/-- Second series of `converter dvA paletteA`. -/
def seA1 : RadarChartSeries :=
  { displayName := "Measures", key := "Serie1", index := 1,
    data := [{ value := 3, categoryIndex := 0, seriesIndex := 1, color := paletteA 1 },
             { value := 4, categoryIndex := 1, seriesIndex := 1, color := paletteA 1 }],
    identity := 6, color := paletteA 1 }

/-- The conversion result for `dvA`. -/
def dataA : RadarChartData :=
  { series := [seA0, seA1],
    categories := ["a", "b"],
    values := [{ value := 1, categoryIndex := 0, seriesIndex := 0, color := paletteA 0 },
               { value := 2, categoryIndex := 1, seriesIndex := 0, color := paletteA 0 },
               { value := 3, categoryIndex := 0, seriesIndex := 1, color := paletteA 1 },
               { value := 4, categoryIndex := 1, seriesIndex := 1, color := paletteA 1 }] }

/-- A concrete viewport. -/
def vpA : IViewport := { width := 100, height := 100 }

/-- Concrete update options delivering `dvA`. -/
def optionsA : VisualUpdateOptions :=
  { dataViews := some [dvA], viewport := vpA, suppressAnimations := false }

/-- The pristine state after `init`. -/
def stInit : RadarChartState :=
  { dataView := none, data := none, settings := none, axisScene := [], dataScene := [] }

/-- The settings computed for `dvA` / `dataA` / `vpA`. -/
def settingsA : RadarChartSettings := computeSettings dvA dataA vpA

/-- The state after a successful `update` with `optionsA`. -/
def stA : RadarChartState :=
  { dataView := some dvA, data := some dataA, settings := some settingsA,
    axisScene := drawAxis envA (some dvA) settingsA,
    dataScene := drawData envA (some dvA) settingsA dataA }

/-- A data view whose first value column has an empty `values` array:
`converter` skips it, so the series at position 0 comes from column 1. -/
def dvC5 : DataView :=
  { categorical := some
      { categories := [{ values := ["a"] }],
        values := some
          { cols := [{ values := [], identity := 10 },
                     { values := [5], identity := 11 }],
            sourceDisplayName := none,
            grouped := [0, 1] } },
    metadata := { objects := none } }

/-- A data view satisfying the claimed precondition (categorical with
one category column, one group per value column) in which `converter`
nevertheless reads `categoryValues[1]` out of bounds: one category
value, two value columns. -/
def dvC8 : DataView :=
  { categorical := some
      { categories := [{ values := ["a"] }],
        values := some
          { cols := [{ values := [3], identity := 0 },
                     { values := [4], identity := 1 }],
            sourceDisplayName := none,
            grouped := [7, 8] } },
    metadata := { objects := none } }

/-- The per-point coordinate formula exactly as the sentence of the specification for claim C1 words it:
`radius * (1 - (p.value / maxValue) * sin(i * 2π / catTotal))` — for
comparison against the `dataPointCx` of the code. -/
def specC1CoordX (env : Env) (radius maxValue value : ℚ) (i catTotal : ℕ) : ℚ :=
  radius * (1 - value / maxValue * env.sin ((i : ℚ) * env.twoPi / (catTotal : ℚ)))

/-- The y counterpart of `specC1CoordX`, with `cos`. -/
def specC1CoordY (env : Env) (radius maxValue value : ℚ) (i catTotal : ℕ) : ℚ :=
  radius * (1 - value / maxValue * env.cos ((i : ℚ) * env.twoPi / (catTotal : ℚ)))

/-- A concrete environment whose sine and cosine are constantly 1
(legitimate since the claim quantifies over the trigonometry of the host). -/
def envB : Env := { sin := fun _ => 1, cos := fun _ => 1, twoPi := 6, colors := paletteA }

/-- A data point with a positive value. -/
def pB0 : RadarChartDataPoint :=
  { value := 1, categoryIndex := 0, seriesIndex := 0, color := "c" }

/-- A data point with a negative value — where the clamp `Math.max(value, 0)` in the code differs from the claimed formula. -/
def pB1 : RadarChartDataPoint :=
  { value := -1, categoryIndex := 1, seriesIndex := 0, color := "c" }

/-- Concrete settings with `maxValue = 1` and a single category. -/
def settingsB : RadarChartSettings :=
  { width := 20, height := 20, catTotal := 1, catAxis := ["a"], radius := 10,
    nodeRadius := 1, levels := 4, levelsFormat := some ("%"), maxValue := some 1 }

/-- Concrete converted data: one series holding `pB0` and `pB1`. -/
def dataB : RadarChartData :=
  { series := [{ displayName := "", key := "Serie0", index := 0,
                 data := [pB0, pB1], identity := 0, color := "c" }],
    categories := ["a"],
    values := [pB0, pB1] }

theorem seriesDataPoints_length (colors : ℕ → String) (k : ℕ) :
    ∀ (v0 : ℕ) (l : List ℚ), (seriesDataPoints colors k v0 l).length = l.length := by
  intro v0 l
  induction l generalizing v0 with
  | nil => rfl
  | cons q rest ih => simp [seriesDataPoints, ih]

theorem seriesDataPoints_getElem? (colors : ℕ → String) (k : ℕ) :
    ∀ (l : List ℚ) (v0 v : ℕ) (q : ℚ), l[v]? = some q →
      (seriesDataPoints colors k v0 l)[v]? =
        some { value := q, categoryIndex := v0 + v, seriesIndex := k, color := colors k } := by
  intro l
  induction l with
  | nil => intro v0 v q h; simp at h
  | cons x rest ih =>
    intro v0 v q h
    cases v with
    | zero =>
      simp at h
      subst h
      simp [seriesDataPoints]
    | succ v =>
      simp at h
      have := ih (v0 + 1) v q h
      simpa [seriesDataPoints, Nat.add_assoc, Nat.add_comm 1 v] using this

theorem seriesDataPoints_mem (colors : ℕ → String) (k : ℕ) :
    ∀ (v0 : ℕ) (l : List ℚ) (p : RadarChartDataPoint),
      p ∈ seriesDataPoints colors k v0 l → p.seriesIndex = k ∧ p.color = colors k := by
  intro v0 l
  induction l generalizing v0 with
  | nil => intro p h; simp [seriesDataPoints] at h
  | cons q rest ih =>
    intro p h
    simp only [seriesDataPoints, List.mem_cons] at h
    rcases h with h | h
    · subst h; exact ⟨rfl, rfl⟩
    · exact ih (v0 + 1) p h

theorem buildValues_length (colors : ℕ → String) :
    ∀ (cols : List DataViewValueColumn) (k0 : ℕ),
      (buildValues colors k0 cols).length = (cols.map fun c => c.values.length).sum := by
  intro cols
  induction cols with
  | nil => intro k0; rfl
  | cons col rest ih =>
    intro k0
    simp [buildValues, seriesDataPoints_length, ih]

theorem buildValues_getElem? (colors : ℕ → String) :
    ∀ (cols : List DataViewValueColumn) (k0 s v : ℕ) (col : DataViewValueColumn),
      cols[s]? = some col → ∀ (q : ℚ), col.values[v]? = some q →
      (buildValues colors k0 cols)[flatOffset cols s + v]? =
        some { value := q, categoryIndex := v, seriesIndex := k0 + s,
               color := colors (k0 + s) } := by
  intro cols
  induction cols with
  | nil => intro k0 s v col h; simp at h
  | cons c rest ih =>
    intro k0 s v col h q hq
    cases s with
    | zero =>
      simp at h
      subst h
      have hv : v < c.values.length := by
        have := List.getElem?_eq_some_iff.mp hq
        exact this.1
      have hlt : v < (seriesDataPoints colors k0 0 c.values).length := by
        rw [seriesDataPoints_length]; exact hv
      rw [show flatOffset (c :: rest) 0 + v = v from by simp [flatOffset]]
      rw [buildValues, List.getElem?_append_left hlt]
      have := seriesDataPoints_getElem? colors k0 c.values 0 v q hq
      simpa using this
    | succ s =>
      simp at h
      have hlen : (seriesDataPoints colors k0 0 c.values).length = c.values.length :=
        seriesDataPoints_length colors k0 0 c.values
      have hoff : flatOffset (c :: rest) (s + 1) + v =
          (seriesDataPoints colors k0 0 c.values).length + (flatOffset rest s + v) := by
        simp [flatOffset, hlen]; omega
      rw [hoff, buildValues, List.getElem?_append_right (by omega)]
      rw [show (seriesDataPoints colors k0 0 c.values).length + (flatOffset rest s + v)
            - (seriesDataPoints colors k0 0 c.values).length = flatOffset rest s + v from by omega]
      have := ih (k0 + 1) s v col h q hq
      simpa [Nat.add_assoc, Nat.add_comm 1 s] using this

theorem buildSeries_mem (colors : ℕ → String) (t : String) :
    ∀ (cols : List DataViewValueColumn) (k0 : ℕ) (se : RadarChartSeries),
      se ∈ buildSeries colors t k0 cols →
      ∃ j col, cols[j]? = some col ∧
        seriesDataPoints colors (k0 + j) 0 col.values ≠ [] ∧
        se = { displayName := t, key := "Serie" ++ toString (k0 + j), index := k0 + j,
               data := seriesDataPoints colors (k0 + j) 0 col.values,
               identity := col.identity, color := colors (k0 + j) } := by
  intro cols
  induction cols with
  | nil => intro k0 se h; simp [buildSeries] at h
  | cons c rest ih =>
    intro k0 se h
    simp only [buildSeries, List.mem_append] at h
    rcases h with h | h
    · by_cases hne : seriesDataPoints colors k0 0 c.values = []
      · simp [hne] at h
      · simp [hne] at h
        refine ⟨0, c, by simp, by simpa using hne, ?_⟩
        simpa using h
    · obtain ⟨j, col, hcol, hne, hse⟩ := ih (k0 + 1) se h
      refine ⟨j + 1, col, by simpa using hcol, ?_, ?_⟩
      · simpa [Nat.add_assoc, Nat.add_comm 1 j] using hne
      · simpa [Nat.add_assoc, Nat.add_comm 1 j] using hse

theorem buildSeries_getElem?_of_nonempty (colors : ℕ → String) (t : String) :
    ∀ (cols : List DataViewValueColumn) (k0 : ℕ),
      (∀ col ∈ cols, col.values ≠ []) →
      ∀ (k : ℕ) (col : DataViewValueColumn), cols[k]? = some col →
      (buildSeries colors t k0 cols)[k]? =
        some { displayName := t, key := "Serie" ++ toString (k0 + k), index := k0 + k,
               data := seriesDataPoints colors (k0 + k) 0 col.values,
               identity := col.identity, color := colors (k0 + k) } := by
  intro cols
  induction cols with
  | nil => intro k0 _ k col h; simp at h
  | cons c rest ih =>
    intro k0 hall k col h
    have hc : c.values ≠ [] := hall c (by simp)
    have hne : seriesDataPoints colors k0 0 c.values ≠ [] := by
      cases hx : c.values with
      | nil => exact absurd hx hc
      | cons q qs => simp [hx, seriesDataPoints]
    cases k with
    | zero =>
      simp at h
      subst h
      simp [buildSeries, hne]
    | succ k =>
      simp at h
      have := ih (k0 + 1) (fun col hcol => hall col (by simp [hcol])) k col h
      have hrw : k0 + 1 + k = k0 + (k + 1) := by omega
      rw [hrw] at this
      simpa [buildSeries, hne] using this

theorem buildSeries_length_of_nonempty (colors : ℕ → String) (t : String) :
    ∀ (cols : List DataViewValueColumn) (k0 : ℕ),
      (∀ col ∈ cols, col.values ≠ []) →
      (buildSeries colors t k0 cols).length = cols.length := by
  intro cols
  induction cols with
  | nil => intro k0 _; rfl
  | cons c rest ih =>
    intro k0 hall
    have hc : c.values ≠ [] := hall c (by simp)
    have hne : seriesDataPoints colors k0 0 c.values ≠ [] := by
      cases hx : c.values with
      | nil => exact absurd hx hc
      | cons q qs => simp [hx, seriesDataPoints]
    simp [buildSeries, hne, ih (k0 + 1) (fun col hcol => hall col (by simp [hcol]))]

theorem nodesFrom_getElem? (env : Env) (s : RadarChartSettings) :
    ∀ (l : List RadarChartDataPoint) (i0 i : ℕ) (p : RadarChartDataPoint),
      l[i]? = some p →
      (nodesFrom env s i0 l)[i]? =
        some (SceneElement.node (dataPointCx env s p.value (i0 + i))
          (dataPointCy env s p.value (i0 + i)) s.nodeRadius (max p.value 0) p.color) := by
  intro l
  induction l with
  | nil => intro i0 i p h; simp at h
  | cons q rest ih =>
    intro i0 i p h
    cases i with
    | zero =>
      simp at h
      subst h
      simp [nodesFrom]
    | succ i =>
      simp at h
      have := ih (i0 + 1) i p h
      simpa [nodesFrom, Nat.add_assoc, Nat.add_comm 1 i] using this

theorem polygonsFrom_length (env : Env) (s : RadarChartSettings) :
    ∀ (l : List RadarChartSeries) (j0 : ℕ), (polygonsFrom env s j0 l).length = l.length := by
  intro l
  induction l with
  | nil => intro j0; rfl
  | cons se rest ih => intro j0; simp [polygonsFrom, ih]

theorem polygonsFrom_getElem? (env : Env) (s : RadarChartSettings) :
    ∀ (l : List RadarChartSeries) (j0 j : ℕ) (se : RadarChartSeries),
      l[j]? = some se →
      (polygonsFrom env s j0 l)[j]? =
        some (SceneElement.polygon ("radar-chart-serie" ++ toString (j0 + j))
          (polygonPts env s se.data) (env.colors (j0 + j)) (env.colors (j0 + j))) := by
  intro l
  induction l with
  | nil => intro j0 j se h; simp at h
  | cons x rest ih =>
    intro j0 j se h
    cases j with
    | zero =>
      simp at h
      subst h
      simp [polygonsFrom]
    | succ j =>
      simp at h
      have := ih (j0 + 1) j se h
      simpa [polygonsFrom, Nat.add_assoc, Nat.add_comm 1 j] using this

theorem polygonBase_length (env : Env) (s : RadarChartSettings) :
    ∀ (l : List RadarChartDataPoint) (i0 : ℕ), (polygonBase env s i0 l).length = l.length := by
  intro l
  induction l with
  | nil => intro i0; rfl
  | cons p rest ih => intro i0; simp [polygonBase, ih]

theorem polygonBase_getElem? (env : Env) (s : RadarChartSettings) :
    ∀ (l : List RadarChartDataPoint) (i0 i : ℕ) (p : RadarChartDataPoint),
      l[i]? = some p →
      (polygonBase env s i0 l)[i]? =
        some (PolyPt.pt (dataPointCx env s p.value (i0 + i))
          (dataPointCy env s p.value (i0 + i))) := by
  intro l
  induction l with
  | nil => intro i0 i p h; simp at h
  | cons q rest ih =>
    intro i0 i p h
    cases i with
    | zero =>
      simp at h
      subst h
      simp [polygonBase]
    | succ i =>
      simp at h
      have := ih (i0 + 1) i p h
      simpa [polygonBase, Nat.add_assoc, Nat.add_comm 1 i] using this

theorem polygonPts_getElem? (env : Env) (s : RadarChartSettings)
    (dataPoints : List RadarChartDataPoint) (v : ℕ) (p : RadarChartDataPoint)
    (h : dataPoints[v]? = some p) :
    (polygonPts env s dataPoints)[v]? =
      some (PolyPt.pt (dataPointCx env s p.value v) (dataPointCy env s p.value v)) := by
  have hv : v < dataPoints.length := (List.getElem?_eq_some_iff.mp h).1
  have hlt : v < (polygonBase env s 0 dataPoints).length := by
    rw [polygonBase_length]; exact hv
  rw [polygonPts, List.getElem?_append_left hlt]
  simpa using polygonBase_getElem? env s dataPoints 0 v p h

theorem jsLoopCount_natCast (n : ℕ) : jsLoopCount (n : ℚ) = n := by
  simp only [jsLoopCount, Rat.num_natCast, Rat.den_natCast]
  split
  · omega
  · omega

theorem jsLoopCount_natCast_sub_one (n : ℕ) : jsLoopCount ((n : ℚ) - 1) = n - 1 := by
  cases n with
  | zero =>
    show jsLoopCount ((0 : ℚ) - 1) = 0
    norm_num [jsLoopCount]
  | succ m =>
    have : ((m + 1 : ℕ) : ℚ) - 1 = (m : ℚ) := by push_cast; ring
    rw [this, jsLoopCount_natCast]
    omega

theorem range_map_getElem? {α : Type} (k : ℕ) (f : ℕ → α) (j : ℕ) (h : j < k) :
    ((List.range k).map f)[j]? = some (f j) := by
  rw [List.getElem?_map, List.getElem?_range h]
  rfl

theorem range_flatMap_map_length {α : Type} (a b : ℕ) (f : ℕ → ℕ → α) :
    ((List.range a).flatMap fun j => (List.range b).map (f j)).length = a * b := by
  induction a generalizing f with
  | zero => simp
  | succ a ih =>
    rw [List.range_succ, List.flatMap_append, List.length_append, ih]
    simp [Nat.succ_mul]

theorem range_flatMap_map_getElem? {α : Type} (b : ℕ) (f : ℕ → ℕ → α) :
    ∀ (a j i : ℕ), j < a → i < b →
      ((List.range a).flatMap fun j => (List.range b).map (f j))[j * b + i]? =
        some (f j i) := by
  intro a
  induction a generalizing f with
  | zero => intro j i hj _; omega
  | succ a ih =>
    intro j i hj hi
    rw [List.range_succ_eq_map, List.flatMap_cons, List.flatMap_map]
    cases j with
    | zero =>
      have hlt : i < ((List.range b).map (f 0)).length := by
        simpa using hi
      rw [show 0 * b + i = i from by omega, List.getElem?_append_left hlt]
      exact range_map_getElem? b (f 0) i hi
    | succ j =>
      have hlen : ((List.range b).map (f 0)).length = b := by simp
      rw [List.getElem?_append_right (by rw [hlen, Nat.succ_mul]; omega)]
      rw [hlen, show (j + 1) * b + i - b = j * b + i from by rw [Nat.succ_mul]; omega]
      exact ih (fun j i => f (j + 1) i) j i (by omega) hi

theorem d3Max_spec (l : List ℚ) (h : l ≠ []) :
    ∃ m, d3Max l = some m ∧ m ∈ l ∧ ∀ x ∈ l, x ≤ m := by
  have hne : l.max? ≠ none := by
    simpa [List.max?_eq_none_iff] using h
  obtain ⟨m, hm⟩ := Option.ne_none_iff_exists.mp hne
  refine ⟨m, hm.symm, List.max?_mem max_choice hm.symm, ?_⟩
  exact (List.max?_le_iff (fun _ _ _ => max_le_iff) hm.symm).1 le_rfl

example : converter dvA paletteA = some dataA := rfl

example : update envA optionsA stInit = some stA := rfl

/-- C9: when `options.dataViews` is missing or has no first element,
`update` returns immediately and the whole visual state — stored data
view, data, settings and both drawn scenes — is exactly what it was
before the call. -/
theorem radar_c9 (env : Env) (options : VisualUpdateOptions) (st : RadarChartState)
    (h : options.dataViews = none ∨ options.dataViews = some []) :
    update env options st = some st := by
  rcases h with h | h <;> simp [update, h]

/-- Witness for C9 at a concrete call whose `dataViews` is missing,
starting from a non-trivial previous state. -/
theorem radar_c9_witness :
    update envA { dataViews := none, viewport := vpA, suppressAnimations := false } stA =
      some stA :=
  radar_c9 envA { dataViews := none, viewport := vpA, suppressAnimations := false } stA
    (Or.inl rfl)

/-- C10: with the data view absent, the metadata objects absent, or the
relevant object absent, the configuration getters return the fixed
defaults: `true` for the three show getters, `4` for `sizeFactor` and
`segments`, `"%"` for the level format. -/
theorem radar_c10 (dataView : Option DataView) :
    (nodesObjectAbsent dataView →
      getShowNodes dataView = some true ∧ getSizeFactorNodes dataView = 4) ∧
    (levelAxisObjectAbsent dataView →
      getShowLevelAxis dataView = some true ∧ getSegmentsLevelAxis dataView = 4 ∧
      getFormatLevelAxis dataView = some ("%")) ∧
    (categoryAxisObjectAbsent dataView →
      getShowCategoryAxis dataView = some true) := by
  rcases dataView with _ | ⟨cat, ⟨objs⟩⟩
  · exact ⟨fun _ => ⟨rfl, rfl⟩, fun _ => ⟨rfl, rfl, rfl⟩, fun _ => rfl⟩
  · rcases objs with _ | ⟨n, l, c⟩
    · exact ⟨fun _ => ⟨rfl, rfl⟩, fun _ => ⟨rfl, rfl, rfl⟩, fun _ => rfl⟩
    · refine ⟨fun hn => ?_, fun hl => ?_, fun hc => ?_⟩
      · have : n = none := hn
        subst this
        exact ⟨rfl, rfl⟩
      · have : l = none := hl
        subst this
        exact ⟨rfl, rfl, rfl⟩
      · have : c = none := hc
        subst this
        rfl

/-- Witness for C10 at the absent data view. -/
theorem radar_c10_witness :
    (getShowNodes none = some true ∧ getSizeFactorNodes none = 4) ∧
    (getShowLevelAxis none = some true ∧ getSegmentsLevelAxis none = 4 ∧
      getFormatLevelAxis none = some ("%")) ∧
    getShowCategoryAxis none = some true := by
  have h := radar_c10 none
  exact ⟨h.1 trivial, h.2.1 trivial, h.2.2 trivial⟩

/-- C7: `enumerateObjectInstances` returns exactly one instance echoing
the property values read from the stored data view for the object names `nodes`
(`show`, `sizeFactor`), `categoryAxis` (`show`) and `levelAxis` (`show`,
`segments`), and the empty list for every other object name. -/
theorem radar_c7 (dataView : Option DataView) (objectName : String) :
    enumerateObjectInstances dataView ("nodes") =
      [{ objectName := "nodes", displayName := "Nodes", selector := none,
         properties :=
           [("show", (getShowNodes dataView).map PropValue.b),
            ("sizeFactor", some (PropValue.num (getSizeFactorNodes dataView)))] }] ∧
    enumerateObjectInstances dataView ("categoryAxis") =
      [{ objectName := "categoryAxis", displayName := "Category axis", selector := none,
         properties := [("show", (getShowCategoryAxis dataView).map PropValue.b)] }] ∧
    enumerateObjectInstances dataView ("levelAxis") =
      [{ objectName := "levelAxis", displayName := "Level axis", selector := none,
         properties :=
           [("show", (getShowLevelAxis dataView).map PropValue.b),
            ("segments", some (PropValue.num (getSegmentsLevelAxis dataView)))] }] ∧
    (objectName ≠ "nodes" → objectName ≠ "categoryAxis" → objectName ≠ "levelAxis" →
      enumerateObjectInstances dataView objectName = []) := by
  refine ⟨rfl, rfl, rfl, ?_⟩
  intro h1 h2 h3
  simp [enumerateObjectInstances, h1, h2, h3]

/-- Witness for C7 at the absent data view and an unknown object name. -/
theorem radar_c7_witness :
    enumerateObjectInstances none ("nodes") =
      [{ objectName := "nodes", displayName := "Nodes", selector := none,
         properties :=
           [("show", (getShowNodes none).map PropValue.b),
            ("sizeFactor", some (PropValue.num (getSizeFactorNodes none)))] }] ∧
    enumerateObjectInstances none ("general") = [] := by
  have h := radar_c7 none ("general")
  exact ⟨h.1, h.2.2.2 (by decide) (by decide) (by decide)⟩

/-- C4: a call to `update` with a non-empty `dataViews` whose conversion
succeeds produces a state computed entirely from `options.dataViews[0]`,
`options.viewport` and the init-time environment; the previous state has
no influence (the result is the same from any two prior states). -/
theorem radar_c4 (env : Env) (options : VisualUpdateOptions)
    (st st2 : RadarChartState) (dataView : DataView) (rest : List DataView)
    (data : RadarChartData)
    (hdv : options.dataViews = some (dataView :: rest))
    (hconv : converter dataView env.colors = some data) :
    update env options st =
      some { dataView := some dataView, data := some data,
             settings := some (computeSettings dataView data options.viewport),
             axisScene := drawAxis env (some dataView)
               (computeSettings dataView data options.viewport),
             dataScene := drawData env (some dataView)
               (computeSettings dataView data options.viewport) data } ∧
    update env options st = update env options st2 := by
  constructor
  · simp [update, hdv, hconv]
  · simp [update, hdv, hconv]

/-- Witness for C4: the concrete update with `dvA` gives the same fully
determined state from the pristine state and from an already-rendered
state. -/
theorem radar_c4_witness :
    update envA optionsA stInit =
      some { dataView := some dvA, data := some dataA,
             settings := some (computeSettings dvA dataA optionsA.viewport),
             axisScene := drawAxis envA (some dvA)
               (computeSettings dvA dataA optionsA.viewport),
             dataScene := drawData envA (some dvA)
               (computeSettings dvA dataA optionsA.viewport) dataA } ∧
    update envA optionsA stInit = update envA optionsA stA :=
  radar_c4 envA optionsA stInit stA dvA [] dataA rfl rfl

/-- C2: after a successful `update` on a non-empty `dataViews`, if the
converted data has a non-empty `values` list then the stored
`settings.maxValue` is the maximum of `p.value` over all data points of
`data.values`, across every series and category. -/
theorem radar_c2 (env : Env) (options : VisualUpdateOptions)
    (st st2 : RadarChartState) (dataView : DataView) (rest : List DataView)
    (hdv : options.dataViews = some (dataView :: rest))
    (hupd : update env options st = some st2)
    (data : RadarChartData) (hdata : st2.data = some data)
    (hne : data.values ≠ []) :
    ∃ settings m, st2.settings = some settings ∧ settings.maxValue = some m ∧
      m ∈ data.values.map RadarChartDataPoint.value ∧
      ∀ p ∈ data.values, p.value ≤ m := by
  simp only [update, hdv] at hupd
  cases hc : converter dataView env.colors with
  | none => rw [hc] at hupd; simp at hupd
  | some d =>
    rw [hc] at hupd
    simp only [Option.some.injEq] at hupd
    subst hupd
    simp only at hdata
    rw [Option.some.injEq] at hdata
    subst hdata
    obtain ⟨m, hm, hmem, hle⟩ :=
      d3Max_spec (d.values.map RadarChartDataPoint.value) (by simpa using hne)
    refine ⟨computeSettings dataView d options.viewport, m, rfl, ?_, hmem, ?_⟩
    · simpa [computeSettings] using hm
    · intro p hp
      exact hle p.value (List.mem_map_of_mem RadarChartDataPoint.value hp)

/-- Witness for C2 at the concrete update with `dvA`. -/
theorem radar_c2_witness :
    ∃ settings m, stA.settings = some settings ∧ settings.maxValue = some m ∧
      m ∈ dataA.values.map RadarChartDataPoint.value ∧
      ∀ p ∈ dataA.values, p.value ≤ m :=
  radar_c2 envA optionsA stInit stA dvA [] rfl rfl dataA rfl (by simp [dataA])

/-- The success value of `converter` determines its components: helper fact
extracting `d.categories`, `d.series` and `d.values` from a successful
conversion. -/
theorem converter_eq_some (dataView : DataView) (colors : ℕ → String)
    (d : RadarChartData) (h : converter dataView colors = some d) :
    ∃ legendTitle,
      d.series = buildSeries colors legendTitle 0 (valueColumns dataView) ∧
      d.values = buildValues colors 0 (valueColumns dataView) := by
  unfold converter at h
  cases hcat : dataView.categorical with
  | none => rw [hcat] at h; simp at h
  | some categorical =>
    simp only [hcat] at h
    cases hcats : categorical.categories with
    | nil => simp only [hcats] at h; simp at h
    | cons category tail =>
      simp only [hcats, Option.some.injEq] at h
      subst h
      refine ⟨match categorical.values with
        | some vs =>
          match vs.sourceDisplayName with
          | some t => t
          | none => ""
        | none => "", ?_, ?_⟩ <;>
      · simp only [valueColumns, hcat]

/-- C3: the `values` list of a successful conversion is the flattened
concatenation, in series order then value-index order, of the per-series
data-point lists: it has exactly one entry per (column, value-index)
pair, at offset `flatOffset cols s + v`, and nothing else (its length is
the total number of column values). -/
theorem radar_c3 (dataView : DataView) (colors : ℕ → String) (d : RadarChartData)
    (h : converter dataView colors = some d) :
    d.values.length = ((valueColumns dataView).map fun c => c.values.length).sum ∧
    ∀ (s v : ℕ) (col : DataViewValueColumn) (q : ℚ),
      (valueColumns dataView)[s]? = some col → col.values[v]? = some q →
      d.values[flatOffset (valueColumns dataView) s + v]? =
        some { value := q, categoryIndex := v, seriesIndex := s, color := colors s } := by
  obtain ⟨t, _, hv⟩ := converter_eq_some dataView colors d h
  rw [hv]
  constructor
  · exact buildValues_length colors (valueColumns dataView) 0
  · intro s v col q hcol hq
    have := buildValues_getElem? colors (valueColumns dataView) 0 s v col hcol q hq
    simpa using this

/-- Witness for C3 at `dvA`: the right length, and the point of series 1
at value index 0 sits at the flattened offset. -/
theorem radar_c3_witness :
    dataA.values.length = ((valueColumns dvA).map fun c => c.values.length).sum ∧
    dataA.values[flatOffset (valueColumns dvA) 1 + 0]? =
      some { value := 3, categoryIndex := 0, seriesIndex := 1, color := paletteA 1 } := by
  have h := radar_c3 dvA paletteA dataA rfl
  exact ⟨h.1, h.2 1 0 { values := [3, 4], identity := 6 } 3 rfl rfl⟩

/-- C5 (amended): every series produced by `converter` carries the
`seriesIndex` `k` of the value column it was built from: key
`"Serie" + k`, the identity of the `k`-th value column, the palette
color for `k`, and every one of its (non-empty) data points shares that
series index and color.  The POSITION in the returned list equals `k`
when every value column is non-empty; a column with an empty `values`
array produces no series, shifting later positions. -/
theorem radar_c5_amended (dataView : DataView) (colors : ℕ → String)
    (d : RadarChartData) (h : converter dataView colors = some d) :
    (∀ se ∈ d.series, ∃ col, (valueColumns dataView)[se.index]? = some col ∧
      se.key = "Serie" ++ toString se.index ∧
      se.identity = col.identity ∧
      se.color = colors se.index ∧
      se.data = seriesDataPoints colors se.index 0 col.values ∧
      se.data ≠ [] ∧
      ∀ p ∈ se.data, p.seriesIndex = se.index ∧ p.color = colors se.index) ∧
    ((∀ col ∈ valueColumns dataView, col.values ≠ []) →
      ∀ (k : ℕ) (se : RadarChartSeries), d.series[k]? = some se → se.index = k) := by
  obtain ⟨t, hs, _⟩ := converter_eq_some dataView colors d h
  constructor
  · intro se hse
    rw [hs] at hse
    obtain ⟨j, col, hcol, hne, hseq⟩ :=
      buildSeries_mem colors t (valueColumns dataView) 0 se hse
    subst hseq
    refine ⟨col, ?_, ?_, ?_, ?_, ?_, ?_, ?_⟩
    · simpa using hcol
    · simp
    · simp
    · simp
    · simp
    · simpa using hne
    · intro p hp
      simp only at hp
      have := seriesDataPoints_mem colors (0 + j) 0 col.values p hp
      simpa using this
  · intro hall k se hk
    rw [hs] at hk
    have hkl : k < (buildSeries colors t 0 (valueColumns dataView)).length :=
      (List.getElem?_eq_some_iff.mp hk).1
    have hkc : k < (valueColumns dataView).length := by
      rwa [buildSeries_length_of_nonempty colors t (valueColumns dataView) 0 hall] at hkl
    obtain ⟨col, hcol⟩ : ∃ col, (valueColumns dataView)[k]? = some col :=
      ⟨(valueColumns dataView)[k], List.getElem?_eq_some_iff.mpr ⟨hkc, rfl⟩⟩
    have := buildSeries_getElem?_of_nonempty colors t (valueColumns dataView) 0 hall k col hcol
    rw [this] at hk
    rw [Option.some.injEq] at hk
    rw [← hk]
    simp

/-- Counterexample to C5 as stated: for `dvC5` the series list returned
by `converter` has its position-0 element carrying index 1 and key
`Serie1`, because the empty first value column produced no series. -/
theorem radar_c5_counterexample :
    ¬ (∀ d, converter dvC5 paletteA = some d →
        ∀ (k : ℕ) (se : RadarChartSeries), d.series[k]? = some se →
          se.index = k) := by
  intro hclaim
  have h := hclaim
    { series := [{ displayName := "", key := "Serie1", index := 1,
                   data := [{ value := 5, categoryIndex := 0, seriesIndex := 1,
                              color := paletteA 1 }],
                   identity := 11, color := paletteA 1 }],
      categories := ["a"],
      values := [{ value := 5, categoryIndex := 0, seriesIndex := 1,
                   color := paletteA 1 }] }
    rfl 0
    { displayName := "", key := "Serie1", index := 1,
      data := [{ value := 5, categoryIndex := 0, seriesIndex := 1,
                 color := paletteA 1 }],
      identity := 11, color := paletteA 1 }
    rfl
  simp at h

/-- Witness for C5 (amended) at `dvA`: the member fact for the series at
position 1, and position-equals-index under all-columns-non-empty. -/
theorem radar_c5_witness :
    (∃ col, (valueColumns dvA)[seA1.index]? = some col ∧
      seA1.key = "Serie" ++ toString seA1.index ∧
      seA1.identity = col.identity ∧
      seA1.color = paletteA seA1.index ∧
      seA1.data = seriesDataPoints paletteA seA1.index 0 col.values ∧
      seA1.data ≠ [] ∧
      ∀ p ∈ seA1.data, p.seriesIndex = seA1.index ∧ p.color = paletteA seA1.index) ∧
    seA0.index = 0 := by
  have h := radar_c5_amended dvA paletteA dataA rfl
  refine ⟨h.1 seA1 (by simp [dataA]), ?_⟩
  exact h.2 (by decide) 0 seA0 rfl

/-- C8 (amended): `converter` returns a result exactly when
`dataView.categorical` exists with at least one category column (it
throws otherwise), and under that precondition it is total.  All its
array reads are in bounds under the additional hypotheses that
`grouped()` has one group per value column, that there are no more value
columns than category values, and that no value column is longer than
the category values (without these, the reads of
`categoryValues[seriesIndex]` / `categoryValues[valueIndex]` can be out
of bounds, yielding `undefined` that only reaches the external
formatter). -/
theorem radar_c8_amended (dataView : DataView) (colors : ℕ → String) :
    ((converter dataView colors).isSome = true ↔ converterPrecondition dataView) ∧
    (converterPrecondition dataView →
      groupedLength dataView = (valueColumns dataView).length →
      (valueColumns dataView).length ≤ categoryValuesLength dataView →
      (∀ col ∈ valueColumns dataView, col.values.length ≤ categoryValuesLength dataView) →
      converterAccessesInBounds dataView) := by
  constructor
  · unfold converter converterPrecondition
    obtain ⟨cat, md⟩ := dataView
    cases cat with
    | none => simp
    | some categorical =>
      obtain ⟨cats, vals⟩ := categorical
      cases cats with
      | nil => simp
      | cons category tail => simp
  · intro hpre hg hlen hcols
    refine ⟨hpre, ?_⟩
    intro s col hcol
    have hs : s < (valueColumns dataView).length :=
      (List.getElem?_eq_some_iff.mp hcol).1
    have hmem : col ∈ valueColumns dataView := by
      obtain ⟨hlt, heq⟩ := List.getElem?_eq_some_iff.mp hcol
      rw [← heq]
      exact List.getElem_mem hlt
    exact ⟨by omega, by omega, hcols col hmem⟩

/-- Counterexample to C8 as stated: `dvC8` satisfies the precondition
and has one group per value column, `converter` is total on it, yet not
every array access is in bounds (`categoryValues[seriesIndex]` with
`seriesIndex = 1` reads past the single category value). -/
theorem radar_c8_counterexample :
    converterPrecondition dvC8 ∧
    groupedLength dvC8 = (valueColumns dvC8).length ∧
    (converter dvC8 paletteA).isSome = true ∧
    ¬ converterAccessesInBounds dvC8 := by
  refine ⟨?_, rfl, rfl, ?_⟩
  · show ([{ values := ["a"] }] : List DataViewCategoryColumn) ≠ []
    simp
  · intro hb
    have h := hb.2 1 { values := [4], identity := 1 } rfl
    have h2 : (1 : ℕ) < categoryValuesLength dvC8 := h.2.1
    rw [show categoryValuesLength dvC8 = 1 from rfl] at h2
    omega

/-- Witness for C8 (amended) at `dvA`, where all the strengthened bounds
hold. -/
theorem radar_c8_witness :
    ((converter dvA paletteA).isSome = true ↔ converterPrecondition dvA) ∧
    converterAccessesInBounds dvA := by
  have h := radar_c8_amended dvA paletteA
  refine ⟨h.1, h.2 ?_ rfl (by decide) (by decide)⟩
  show ([{ values := ["a", "b"] }] : List DataViewCategoryColumn) ≠ []
  simp

/-- C6: when the level axis is shown and the configured segments value
is the natural number `n`, `drawAxis` appends the level segments first:
exactly `n * catTotal` ring lines, the `(j, i)`-th at radial distance
`radius * (j + 1) / levels`, then exactly `n - 1` level labels, the
`j`-th showing `(j + 1) * maxValue / levels` rendered with the
configured level format; and `settings.levels` is exactly the configured
`segments` property. -/
theorem radar_c6 (env : Env) (dataView : DataView) (data : RadarChartData)
    (viewport : IViewport) (s : RadarChartSettings) (n : ℕ)
    (hs : s = computeSettings dataView data viewport)
    (hshow : jsTruthy (getShowLevelAxis (some dataView)) = true)
    (hseg : getSegmentsLevelAxis (some dataView) = (n : ℚ)) :
    drawAxis env (some dataView) s =
      levelSegments env s ++ levelLabels env s ++
        (if jsTruthy (getShowCategoryAxis (some dataView)) then
          categoryLines env s ++ categoryLabelsFrom env s 0 s.catAxis
        else []) ∧
    s.levels = getSegmentsLevelAxis (some dataView) ∧
    (levelSegments env s).length = n * s.catTotal ∧
    (∀ j i : ℕ, j < n → i < s.catTotal →
      (levelSegments env s)[j * s.catTotal + i]? =
        some (SceneElement.ringSegment
          (s.radius * (((j : ℚ) + 1) / s.levels) *
            (1 - Factor * env.sin ((i : ℚ) * env.twoPi / (s.catTotal : ℚ))))
          (s.radius * (((j : ℚ) + 1) / s.levels) *
            (1 - Factor * env.cos ((i : ℚ) * env.twoPi / (s.catTotal : ℚ))))
          (s.radius * (((j : ℚ) + 1) / s.levels) *
            (1 - Factor * env.sin (((i : ℚ) + 1) * env.twoPi / (s.catTotal : ℚ))))
          (s.radius * (((j : ℚ) + 1) / s.levels) *
            (1 - Factor * env.cos (((i : ℚ) + 1) * env.twoPi / (s.catTotal : ℚ))))
          (s.width / 2 - s.radius * (((j : ℚ) + 1) / s.levels))
          (s.height / 2 - s.radius * (((j : ℚ) + 1) / s.levels)))) ∧
    (levelLabels env s).length = n - 1 ∧
    (∀ j : ℕ, j < n - 1 →
      (levelLabels env s)[j]? =
        some (SceneElement.levelLabel
          (s.radius * (((j : ℚ) + 1) / s.levels) * (1 - Factor * env.sin 0))
          (s.radius * (((j : ℚ) + 1) / s.levels) * (1 - Factor * env.cos 0))
          (s.width / 2 - s.radius * (((j : ℚ) + 1) / s.levels) + ToRight)
          (s.height / 2 - s.radius * (((j : ℚ) + 1) / s.levels))
          (s.maxValue.map fun m => ((j : ℚ) + 1) * m / s.levels)
          s.levelsFormat)) := by
  have hlev : s.levels = (n : ℚ) := by
    rw [hs]
    simpa [computeSettings] using hseg
  have hcount : jsLoopCount s.levels = n := by
    rw [hlev, jsLoopCount_natCast]
  have hcount1 : jsLoopCount (s.levels - 1) = n - 1 := by
    rw [hlev, jsLoopCount_natCast_sub_one]
  refine ⟨?_, ?_, ?_, ?_, ?_, ?_⟩
  · unfold drawAxis
    rw [hshow]
    simp
  · rw [hs]
    simp [computeSettings]
  · unfold levelSegments
    rw [range_flatMap_map_length, hcount]
  · intro j i hj hi
    have h := range_flatMap_map_getElem? (α := SceneElement) s.catTotal
      (fun j i =>
        SceneElement.ringSegment
          (s.radius * (((j : ℚ) + 1) / s.levels) *
            (1 - Factor * env.sin ((i : ℚ) * env.twoPi / (s.catTotal : ℚ))))
          (s.radius * (((j : ℚ) + 1) / s.levels) *
            (1 - Factor * env.cos ((i : ℚ) * env.twoPi / (s.catTotal : ℚ))))
          (s.radius * (((j : ℚ) + 1) / s.levels) *
            (1 - Factor * env.sin (((i : ℚ) + 1) * env.twoPi / (s.catTotal : ℚ))))
          (s.radius * (((j : ℚ) + 1) / s.levels) *
            (1 - Factor * env.cos (((i : ℚ) + 1) * env.twoPi / (s.catTotal : ℚ))))
          (s.width / 2 - s.radius * (((j : ℚ) + 1) / s.levels))
          (s.height / 2 - s.radius * (((j : ℚ) + 1) / s.levels)))
      (jsLoopCount s.levels) j i (by rw [hcount]; exact hj) hi
    exact h
  · unfold levelLabels
    rw [List.length_map, List.length_range, hcount1]
  · intro j hj
    have h := range_map_getElem? (α := SceneElement) (jsLoopCount (s.levels - 1))
      (fun j =>
        SceneElement.levelLabel
          (s.radius * (((j : ℚ) + 1) / s.levels) * (1 - Factor * env.sin 0))
          (s.radius * (((j : ℚ) + 1) / s.levels) * (1 - Factor * env.cos 0))
          (s.width / 2 - s.radius * (((j : ℚ) + 1) / s.levels) + ToRight)
          (s.height / 2 - s.radius * (((j : ℚ) + 1) / s.levels))
          (s.maxValue.map fun m => ((j : ℚ) + 1) * m / s.levels)
          s.levelsFormat)
      j (by rw [hcount1]; exact hj)
    exact h

/-- Witness for C6 at `dvA` (default configuration: 4 segments, level
axis shown): 4 × catTotal ring segments and 3 labels. -/
theorem radar_c6_witness :
    (levelSegments envA settingsA).length = 4 * settingsA.catTotal ∧
    (levelLabels envA settingsA).length = 4 - 1 := by
  have h := radar_c6 envA dvA dataA vpA settingsA 4 rfl rfl
    (by simp [getSegmentsLevelAxis, dvA])
  exact ⟨h.2.2.1, h.2.2.2.2.1⟩

/-- Counterexample to C1 as stated: the node rendered for the data point
`pB1` (value `-1`, flattened index 1) has centre `cx` computed by the
code, and that `cx` differs from the claimed
`radius * (1 - (p.value / maxValue) * sin(i * 2π / catTotal))` — the
code clamps the value with `Math.max(value, 0)` first. -/
theorem radar_c1_counterexample :
    (drawData envB none settingsB dataB)[2]? =
      some (SceneElement.node (dataPointCx envB settingsB (-1) 1)
        (dataPointCy envB settingsB (-1) 1) settingsB.nodeRadius
        (max (-1 : ℚ) 0) ("c")) ∧
    dataPointCx envB settingsB (-1) 1 ≠
      some (specC1CoordX envB settingsB.radius 1 (-1) 1 settingsB.catTotal) := by
  constructor
  · rfl
  · intro hcx
    simp only [dataPointCx, specC1CoordX, settingsB, envB, Factor, Option.map_some,
      Option.some.injEq] at hcx
    rw [max_eq_right (by norm_num : (-1 : ℚ) ≤ 0)] at hcx
    norm_num at hcx

/-- C1 (amended): with `maxValue = some m` and nodes shown, the node
drawn for the data point at position `i` of the flattened `values` list
has centre
`(radius * (1 - (max(p.value,0) / m) * Factor * sin(i * 2π / catTotal)),
  radius * (1 - (max(p.value,0) / m) * Factor * cos(i * 2π / catTotal)))`
— with `i` the FLATTENED position, not the category index — and the
polygon of the series at position `j` has its `v`-th vertex at the same
formula with index `v`, which equals the `categoryIndex` of the point
whenever the data was produced by `converter`. -/
theorem radar_c1_amended (env : Env) (dataView : Option DataView)
    (s : RadarChartSettings) (data : RadarChartData) (m : ℚ)
    (hmax : s.maxValue = some m)
    (hshow : jsTruthy (getShowNodes dataView) = true) :
    (∀ (i : ℕ) (p : RadarChartDataPoint), data.values[i]? = some p →
      (drawData env dataView s data)[data.series.length + i]? =
        some (SceneElement.node
          (some (s.radius * (1 - max p.value 0 / m * Factor *
            env.sin ((i : ℚ) * env.twoPi / (s.catTotal : ℚ)))))
          (some (s.radius * (1 - max p.value 0 / m * Factor *
            env.cos ((i : ℚ) * env.twoPi / (s.catTotal : ℚ)))))
          s.nodeRadius (max p.value 0) p.color)) ∧
    (∀ (j : ℕ) (se : RadarChartSeries), data.series[j]? = some se →
      (drawData env dataView s data)[j]? =
        some (SceneElement.polygon ("radar-chart-serie" ++ toString j)
          (polygonPts env s se.data) (env.colors j) (env.colors j)) ∧
      ∀ (v : ℕ) (p : RadarChartDataPoint), se.data[v]? = some p →
        (polygonPts env s se.data)[v]? =
          some (PolyPt.pt
            (some (s.radius * (1 - max p.value 0 / m * Factor *
              env.sin ((v : ℚ) * env.twoPi / (s.catTotal : ℚ)))))
            (some (s.radius * (1 - max p.value 0 / m * Factor *
              env.cos ((v : ℚ) * env.twoPi / (s.catTotal : ℚ))))))) ∧
    (∀ (dataView0 : DataView) (palette : ℕ → String),
      converter dataView0 palette = some data →
      ∀ se ∈ data.series, ∀ (v : ℕ) (p : RadarChartDataPoint),
        se.data[v]? = some p → p.categoryIndex = v) := by
  have hlenp : (polygonsFrom env s 0 data.series).length = data.series.length :=
    polygonsFrom_length env s data.series 0
  have hif : drawData env dataView s data =
      polygonsFrom env s 0 data.series ++ nodesFrom env s 0 data.values := by
    unfold drawData
    rw [hshow]
    simp
  refine ⟨?_, ?_, ?_⟩
  · intro i p hp
    rw [hif, List.getElem?_append_right (by rw [hlenp]; omega), hlenp,
      show data.series.length + i - data.series.length = i from by omega]
    have h := nodesFrom_getElem? env s data.values 0 i p hp
    rw [h]
    simp [dataPointCx, dataPointCy, hmax]
  · intro j se hj
    constructor
    · rw [hif, List.getElem?_append_left
        (by rw [hlenp]; exact (List.getElem?_eq_some_iff.mp hj).1)]
      have h := polygonsFrom_getElem? env s data.series 0 j se hj
      rw [h]
      simp
    · intro v p hv
      have h := polygonPts_getElem? env s se.data v p hv
      rw [h]
      simp [dataPointCx, dataPointCy, hmax]
  · intro dataView0 palette hconv se hse v p hv
    obtain ⟨t, hs2, _⟩ := converter_eq_some dataView0 palette data hconv
    rw [hs2] at hse
    obtain ⟨j, col, hcol, hne, hseq⟩ :=
      buildSeries_mem palette t (valueColumns dataView0) 0 se hse
    subst hseq
    simp only at hv
    have hvlt : v < (seriesDataPoints palette (0 + j) 0 col.values).length :=
      (List.getElem?_eq_some_iff.mp hv).1
    have hvc : v < col.values.length := by
      rwa [seriesDataPoints_length] at hvlt
    obtain ⟨q, hq⟩ : ∃ q, col.values[v]? = some q :=
      ⟨col.values[v], List.getElem?_eq_some_iff.mpr ⟨hvc, rfl⟩⟩
    have hg := seriesDataPoints_getElem? palette (0 + j) col.values 0 v q hq
    rw [hg] at hv
    rw [Option.some.injEq] at hv
    rw [← hv]
    simp

/-- Witness for C1 (amended): the node for `pB0` (flattened index 0) in
the concrete scene. -/
theorem radar_c1_witness :
    (drawData envB none settingsB dataB)[dataB.series.length + 0]? =
      some (SceneElement.node
        (some (settingsB.radius * (1 - max pB0.value 0 / 1 * Factor *
          envB.sin (((0 : ℕ) : ℚ) * envB.twoPi / (settingsB.catTotal : ℚ)))))
        (some (settingsB.radius * (1 - max pB0.value 0 / 1 * Factor *
          envB.cos (((0 : ℕ) : ℚ) * envB.twoPi / (settingsB.catTotal : ℚ)))))
        settingsB.nodeRadius (max pB0.value 0) pB0.color) :=
  (radar_c1_amended envB none settingsB dataB 1 rfl rfl).1 0 pB0 rfl

end RadarChart

end PowerBI
